import Mathlib

/-!
Verification of the repository's two components against its specification:
the Streamlit session/request bridge (`src/app.py`) and the Task Ledger
(`src/scripts/task_tracker.py`).  The Python source is shallowly embedded:
each user-triggered handler becomes a pure function from the current
session state (and the HTTP response it observed) to the next session
state; the task tracker's document operations become pure functions on a
document value, with the save-to-disk side effect reflected as a Boolean.
-/

/-- JSON values, as produced by `response.json()` and `json.loads`. -/
inductive Json where
  | null
  | bool (b : Bool)
  | num (n : Int)
  | str (s : String)
  | arr (elems : List Json)
  | obj (fields : List (String × Json))

/-- Python truthiness of a JSON value (`if x:`): `None`, `False`, `0`,
`""`, `[]` and `{}` are falsy. -/
def Json.truthy : Json → Bool
  | .null => false
  | .bool b => b
  | .num n => n != 0
  | .str s => s != ""
  | .arr elems => !elems.isEmpty
  | .obj fields => !fields.isEmpty

/-- Python truthiness of an optional JSON value: `None` is falsy. -/
def optTruthy : Option Json → Bool
  | none => false
  | some j => j.truthy

/-- `d.get(k)` on a Python dict parsed from JSON: `None` when the key is
absent (and on a non-object, where CPython would raise). -/
def Json.get : Json → String → Option Json
  | .obj fields, k => fields.lookup k
  | _, _ => none

/-- `d[k] = v` on a Python dict parsed from JSON: overwrite the first
binding of `k` when present, otherwise insert at the end (Python dicts
keep insertion order and hold each key once). Non-objects are unchanged
(CPython would raise there). -/
def Json.setKey : Json → String → Json → Json
  | .obj fields, k, v => .obj (setField fields k v)
  | j, _, _ => j
where
  setField : List (String × Json) → String → Json → List (String × Json)
    | [], k, v => [(k, v)]
    | (k', v') :: rest, k, v =>
        if k' = k then (k', v) :: rest else (k', v') :: setField rest k v

/-- Python `str(x)` of a JSON value, used only for f-string interpolation
when building the bearer header. -/
def Json.pyStr : Json → String
  | .null => "None"
  | .bool true => "True"
  | .bool false => "False"
  | .num n => toString n
  | .str s => s
  | .arr elems => "[" ++ pyStrList elems ++ "]"
  | .obj fields => "\x7b" ++ pyStrFields fields ++ "\x7d"
where
  pyStrList : List Json → String
    | [] => ""
    | j :: rest => Json.pyStr j ++ pyStrList rest
  pyStrFields : List (String × Json) → String
    | [] => ""
    | (k, v) :: rest => k ++ ": " ++ Json.pyStr v ++ pyStrFields rest

/-- The per-user Streamlit session state (`st.session_state`), initialised
with all three fields `None` (app.py lines 23-28).  Each field holds
whatever JSON value (or `None`) the handlers stored. -/
structure Session where
  access_token : Option Json
  refresh_token : Option Json
  user_data : Option Json

/-- The initial session: all three fields `None`. -/
def Session.init : Session := ⟨none, none, none⟩

/-- An HTTP response as the bridge observes it: a status code and the
decoded JSON body (`response.json()`). -/
structure Response where
  status : Nat
  body : Json

/-- An outbound HTTP request as `make_request` builds it before
dispatching. -/
structure HttpRequest where
  method : String
  url : String
  headers : List (String × String)
  payload : Option Json

/-- `make_request` (app.py lines 30-48): concatenate base URL and
endpoint, always set `Content-Type`, and attach the bearer header exactly
when `auth_required` is set and the stored access token is truthy.  The
function unconditionally builds (and the Python code then dispatches) the
request; neither the flag nor a missing token blocks it. -/
def make_request (baseUrl : String) (s : Session) (method endpoint : String)
    (data : Option Json) (auth_required : Bool) : HttpRequest :=
  let url := baseUrl ++ endpoint
  let headers := [("Content-Type", "application/json")]
  let headers :=
    if auth_required && optTruthy s.access_token then
      match s.access_token with
      | some tok => headers ++ [("Authorization", "Bearer " ++ tok.pyStr)]
      | none => headers
    else headers
  { method := method, url := url, headers := headers, payload := data }

/-- The login form handler (app.py lines 121-135).  `resp = none` models a
transport failure (`make_request` returned `None`): the handler body is
skipped.  On a 200 response both tokens are overwritten with
`result.get(...)`; on any other status only an error is displayed. -/
def loginAction (s : Session) (resp : Option Response) : Session :=
  match resp with
  | none => s
  | some r =>
      if r.status = 200 then
        { s with access_token := r.body.get "access_token",
                 refresh_token := r.body.get "refresh_token" }
      else s

/-- The refresh-token tab handler (app.py lines 139-151).  The request is
only made when the stored refresh token is truthy; on a 200 response only
`access_token` is overwritten; otherwise an error is displayed and nothing
changes. -/
def refreshAction (s : Session) (resp : Option Response) : Session :=
  if optTruthy s.refresh_token then
    match resp with
    | none => s
    | some r =>
        if r.status = 200 then { s with access_token := r.body.get "access_token" }
        else s
  else s

/-- The logout button handler (app.py lines 84-88): all three session
fields are set to `None`. -/
def logoutAction (s : Session) : Session :=
  { s with access_token := none, refresh_token := none, user_data := none }

/-- The "Get My Profile" handler (app.py lines 167-176): on a 200 response
`user_data` is set to the response body; otherwise nothing changes. -/
def profileFetchAction (s : Session) (resp : Option Response) : Session :=
  match resp with
  | none => s
  | some r =>
      if r.status = 200 then { s with user_data := some r.body } else s

/-- The "Update User" form handler (app.py lines 217-236): it only runs
when `user_data` is truthy, and on a 200 response it writes the new name
into the cached profile (`st.session_state.user_data["name"] = new_name`,
line 234). -/
def updateUserAction (s : Session) (newName : String) (resp : Option Response) : Session :=
  if optTruthy s.user_data then
    match s.user_data, resp with
    | some ud, some r =>
        if r.status = 200 then { s with user_data := some (ud.setKey "name" (.str newName)) }
        else s
    | _, _ => s
  else s

/-- Outcome of one ad-hoc API-testing form submission (app.py lines
418-435): the dispatched request, if any, and the validation error
message, if any. -/
structure ApiTestOutcome where
  request : Option HttpRequest
  errorMsg : Option String

/-- The API-testing form handler (app.py lines 418-435), parameterised by
`parseJson`, the behaviour of `json.loads` (`none` models a raised
`json.JSONDecodeError`).  `data` starts as `None`; the body is parsed only
when it is truthy (present and non-empty); a parse failure is caught and
reported without calling `make_request`.  The handler never writes any
session field, so the session is returned unchanged. -/
def api_testing_submit (parseJson : String → Option Json) (baseUrl : String) (s : Session)
    (method endpoint : String) (request_body : Option String) (auth_required : Bool) :
    ApiTestOutcome × Session :=
  let parsed : Option (Option Json) :=
    match request_body with
    | none => some none
    | some b =>
        if b = "" then some none
        else
          match parseJson b with
          | some d => some (some d)
          | none => none
  match parsed with
  | none => ({ request := none, errorMsg := some "Invalid JSON in request body" }, s)
  | some data =>
      ({ request := some (make_request baseUrl s method endpoint data auth_required),
         errorMsg := none }, s)

/-- Every user-triggered handler of the app, one constructor per handler;
handlers that make a request carry the `Option Response` they observed
(`none` = transport failure). -/
inductive UiAction where
  | register (resp : Option Response)
  | login (resp : Option Response)
  | refreshTok (resp : Option Response)
  | logout
  | healthLive (resp : Option Response)
  | healthReady (resp : Option Response)
  | getProfile (resp : Option Response)
  | getStats (resp : Option Response)
  | getUserById (uid : String) (resp : Option Response)
  | updateUser (newName : String) (resp : Option Response)
  | deleteUser (uid : String) (resp : Option Response)
  | createUser (resp : Option Response)
  | createRefreshToken (resp : Option Response)
  | getRefreshToken (tid : String) (resp : Option Response)
  | updateRefreshToken (tid : String) (tok : String) (resp : Option Response)
  | deleteRefreshToken (tid : String) (resp : Option Response)
  | apiTest (parseJson : String → Option Json) (method endpoint : String)
      (request_body : Option String) (auth_required : Bool) (resp : Option Response)

/-- The session-state effect of each handler.  Only five handlers contain
a `st.session_state.<field> = ...` assignment in app.py: login (130-131),
refresh (148), logout (85-87), profile fetch (172) and update-user (234);
every other handler (register, health checks, stats, get/delete/create
user, refresh-token CRUD, API testing) only reads the session and
displays, so it leaves the session unchanged. -/
def step (baseUrl : String) (a : UiAction) (s : Session) : Session :=
  match a with
  | .login resp => loginAction s resp
  | .refreshTok resp => refreshAction s resp
  | .logout => logoutAction s
  | .getProfile resp => profileFetchAction s resp
  | .updateUser newName resp => updateUserAction s newName resp
  | .apiTest parseJson method endpoint request_body auth_required _ =>
      (api_testing_submit parseJson baseUrl s method endpoint request_body auth_required).2
  | _ => s

/-- One task record of the Task Ledger (task_tracker.py).  The seed
records carry name, status, priority and day estimate; update may add
`assignee`, `notes` and `last_updated`. -/
structure TaskRecord where
  name : String
  status : String
  priority : String
  days : Nat
  assignee : Option String := none
  notes : Option String := none
  last_updated : Option String := none
deriving DecidableEq, Repr

/-- The `project_info` aggregate of the Task Ledger document. -/
structure ProjectInfo where
  name : String
  start_date : String
  total_tasks : Nat
  completed : Nat
  in_progress : Nat
deriving DecidableEq, Repr

/-- The whole Task Ledger JSON document: `project_info` plus the
insertion-ordered task mapping (a Python dict with unique keys, embedded
as an association list). -/
structure TaskDoc where
  project_info : ProjectInfo
  tasks : List (String × TaskRecord)
deriving DecidableEq, Repr

/-- The default document built by `load_tasks` (task_tracker.py lines
23-70) when no file exists; `today` is `datetime.date.today().isoformat()`. -/
def defaultTasks (today : String) : TaskDoc where
  project_info :=
    { name := "Kitchen Management System Enhancement", start_date := today,
      total_tasks := 24, completed := 0, in_progress := 0 }
  tasks := [
    ("T1", { name := "Unit tests for core business logic", status := "pending", priority := "high", days := 4 }),
    ("T2", { name := "Integration tests for API endpoints", status := "pending", priority := "high", days := 5 }),
    ("T3", { name := "End-to-end test scenarios", status := "pending", priority := "medium", days := 6 }),
    ("D1", { name := "Inline documentation for APIs", status := "pending", priority := "high", days := 3 }),
    ("D2", { name := "Architecture Decision Records", status := "pending", priority := "medium", days := 4 }),
    ("D3", { name := "API usage examples and README", status := "pending", priority := "medium", days := 3 }),
    ("P1", { name := "gRPC connection pooling", status := "pending", priority := "high", days := 4 }),
    ("P2", { name := "Redis caching integration", status := "pending", priority := "high", days := 5 }),
    ("P3", { name := "Request batching for bulk operations", status := "pending", priority := "medium", days := 4 }),
    ("S1", { name := "Request/response validation middleware", status := "pending", priority := "high", days := 4 }),
    ("S2", { name := "Rate limiting with Redis", status := "pending", priority := "high", days := 3 }),
    ("S3", { name := "Security headers and CORS", status := "pending", priority := "medium", days := 2 }),
    ("CF1", { name := "Menu management system", status := "pending", priority := "critical", days := 9 }),
    ("CF2", { name := "Inventory tracking system", status := "pending", priority := "critical", days := 11 }),
    ("CF3", { name := "Order management workflow", status := "pending", priority := "critical", days := 14 }),
    ("CF4", { name := "Staff management with RBAC", status := "pending", priority := "high", days := 7 }),
    ("CF5", { name := "Table/reservation system", status := "pending", priority := "high", days := 9 }),
    ("TE1", { name := "WebSockets for real-time updates", status := "pending", priority := "high", days := 6 }),
    ("TE2", { name := "Mobile app API endpoints", status := "pending", priority := "high", days := 7 }),
    ("TE3", { name := "Kitchen display system", status := "pending", priority := "high", days := 8 }),
    ("TE4", { name := "Reporting and analytics dashboard", status := "pending", priority := "medium", days := 9 }),
    ("OI1", { name := "CI/CD pipeline with GitHub Actions", status := "pending", priority := "high", days := 4 }),
    ("OI2", { name := "Feature flags for gradual rollouts", status := "pending", priority := "medium", days := 5 }),
    ("OI3", { name := "Monitoring with Prometheus/Grafana", status := "pending", priority := "high", days := 6 })]

/-- `d[k]` / `k in d` on the task dict: find the (unique) binding of the
key in the insertion-ordered association list. -/
def findTask : List (String × TaskRecord) → String → Option TaskRecord
  | [], _ => none
  | (k, t) :: rest, key => if k = key then some t else findTask rest key

/-- Python truthiness of an optional string (`if assignee:`): `None` and
`""` are falsy. -/
def strOptTruthy : Option String → Bool
  | none => false
  | some s => s != ""

/-- `self.tasks["tasks"][task_id][...] = ...` for the one existing key:
a Python dict item assignment rewrites the single binding of that key,
embedded as rewriting the first (unique) matching entry. -/
def setTask : List (String × TaskRecord) → String → (TaskRecord → TaskRecord) →
    List (String × TaskRecord)
  | [], _, _ => []
  | (k, t) :: rest, task_id, f =>
      if k = task_id then (k, f t) :: rest else (k, t) :: setTask rest task_id f

/-- The field writes `update_task_status` performs on the found record
(task_tracker.py lines 80-86): set `status` and `last_updated`
unconditionally, and `assignee` / `notes` only when truthy. -/
def applyTaskUpdate (t : TaskRecord) (status : String) (assignee notes : Option String)
    (today : String) : TaskRecord :=
  let t := { t with status := status, last_updated := some today }
  let t := if strOptTruthy assignee then { t with assignee := assignee } else t
  if strOptTruthy notes then { t with notes := notes } else t

/-- `update_project_stats` (task_tracker.py lines 94-100): recompute the
`completed` and `in_progress` counters from the records. -/
def update_project_stats (doc : TaskDoc) : TaskDoc :=
  let completed := doc.tasks.countP (fun kt => kt.2.status = "completed")
  let in_progress := doc.tasks.countP (fun kt => kt.2.status = "in_progress")
  { doc with project_info :=
      { doc.project_info with completed := completed, in_progress := in_progress } }

/-- `update_task_status` (task_tracker.py lines 77-92).  The Boolean is
whether `save_tasks` ran (the document was written to disk): when the key
exists the record is updated, stats recomputed and the file saved; when it
does not, only an error is printed and nothing changes. -/
def update_task_status (doc : TaskDoc) (task_id status : String)
    (assignee notes : Option String) (today : String) : TaskDoc × Bool :=
  if (findTask doc.tasks task_id).isSome then
    let doc' := { doc with
      tasks := setTask doc.tasks task_id (fun t => applyTaskUpdate t status assignee notes today) }
    (update_project_stats doc', true)
  else (doc, false)

/-- `priority_order.get(priority, 4)` (task_tracker.py line 159). -/
def priority_order (p : String) : Nat :=
  if p = "critical" then 0
  else if p = "high" then 1
  else if p = "medium" then 2
  else if p = "low" then 3
  else 4

/-- The sort key of `show_next_tasks` (task_tracker.py line 167):
`(priority_order.get(priority, 4), days)`. -/
def nextKey (kt : String × TaskRecord) : Nat × Nat :=
  (priority_order kt.2.priority, kt.2.days)

/-- Python's lexicographic comparison of the two-element key tuples. -/
def keyLe (a b : Nat × Nat) : Bool :=
  decide (a.1 < b.1 ∨ (a.1 = b.1 ∧ a.2 ≤ b.2))

/-- The ordering `pending_tasks.sort(key=...)` establishes: key tuples
compared lexicographically. -/
def nextLe (a b : String × TaskRecord) : Prop :=
  keyLe (nextKey a) (nextKey b) = true

instance : DecidableRel nextLe :=
  fun a b => inferInstanceAs (Decidable (keyLe (nextKey a) (nextKey b) = true))

instance : IsTotal (String × TaskRecord) nextLe where
  total a b := by
    simp only [nextLe, keyLe, decide_eq_true_eq]
    omega

instance : IsTrans (String × TaskRecord) nextLe where
  trans a b c h1 h2 := by
    simp only [nextLe, keyLe, decide_eq_true_eq] at h1 h2 ⊢
    omega

/-- `show_next_tasks` (task_tracker.py lines 153-179): keep the pending
records, sort them by priority rank then estimated days, and list the
first `count`.  Python's `list.sort` is a stable sort by this key;
insertion sort is stable too, so it realises the same ordering. -/
def show_next_tasks (doc : TaskDoc) (count : Nat) : List (String × TaskRecord) :=
  let pending := doc.tasks.filter (fun kt => kt.2.status = "pending")
  let sorted := List.insertionSort nextLe pending
  sorted.take count

/-- A session holding tokens and a loaded profile, used as a concrete
input below. -/
def profileSession : Session :=
  ⟨some (.str "tok"), some (.str "ref"),
   some (.obj [("name", .str "Ann"), ("email", .str "ann@example.com")])⟩

/-- A ledger document whose `T1` record is already completed, with
counters consistent with the records; used as a concrete input below. -/
def docT1Completed : TaskDoc where
  project_info := { name := "Kitchen Management System Enhancement",
                    start_date := "2026-10-12", total_tasks := 24,
                    completed := 1, in_progress := 0 }
  tasks := [("T1", { name := "Unit tests for core business logic",
                     status := "completed", priority := "high", days := 4 })]

/-- Logging out from any session yields the initial session. -/
theorem logoutAction_eq_init (s : Session) : logoutAction s = Session.init := rfl

/-- The login handler never writes `user_data`. -/
theorem loginAction_user_data (s : Session) (resp : Option Response) :
    (loginAction s resp).user_data = s.user_data := by
  unfold loginAction
  cases resp with
  | none => rfl
  | some r => by_cases h : r.status = 200 <;> simp [h]

/-- The refresh handler never writes `refresh_token` or `user_data`. -/
theorem refreshAction_frame (s : Session) (resp : Option Response) :
    (refreshAction s resp).refresh_token = s.refresh_token ∧
    (refreshAction s resp).user_data = s.user_data := by
  unfold refreshAction
  by_cases h : optTruthy s.refresh_token
  · cases resp with
    | none => simp [h]
    | some r => by_cases h2 : r.status = 200 <;> simp [h, h2]
  · simp [h]

/-- The API-testing handler returns the session unchanged in every
branch. -/
theorem api_testing_submit_snd (parseJson : String → Option Json) (baseUrl : String)
    (s : Session) (method endpoint : String) (request_body : Option String)
    (auth_required : Bool) :
    (api_testing_submit parseJson baseUrl s method endpoint request_body auth_required).2 = s := by
  unfold api_testing_submit
  cases request_body with
  | none => rfl
  | some b =>
      by_cases hb : b = ""
      · simp [hb]
      · cases hp : parseJson b <;> simp [hb, hp]

/-- Applying the status update writes the requested status. -/
theorem applyTaskUpdate_status (t : TaskRecord) (status : String)
    (assignee notes : Option String) (today : String) :
    (applyTaskUpdate t status assignee notes today).status = status := by
  unfold applyTaskUpdate
  split <;> split <;> rfl

/-- Applying the status update leaves name, priority and day estimate
untouched. -/
theorem applyTaskUpdate_frame (t : TaskRecord) (status : String)
    (assignee notes : Option String) (today : String) :
    (applyTaskUpdate t status assignee notes today).name = t.name ∧
    (applyTaskUpdate t status assignee notes today).priority = t.priority ∧
    (applyTaskUpdate t status assignee notes today).days = t.days := by
  unfold applyTaskUpdate
  refine ⟨?_, ?_, ?_⟩ <;> (split <;> split <;> rfl)

/-- Rewriting the binding of one key leaves every other key's binding
unchanged. -/
theorem findTask_setTask_other (l : List (String × TaskRecord)) (key other : String)
    (f : TaskRecord → TaskRecord) (h : other ≠ key) :
    findTask (setTask l key f) other = findTask l other := by
  induction l with
  | nil => rfl
  | cons kt rest ih =>
      obtain ⟨k0, t0⟩ := kt
      by_cases h0 : k0 = key
      · subst h0
        have hne : ¬ (k0 = other) := fun e => h (e.symm ▸ rfl)
        simp [setTask, findTask, hne]
      · by_cases h1 : k0 = other
        · subst h1
          simp [setTask, findTask, h0, h]
        · simp [setTask, findTask, h0, h1, ih]

/-- Rewriting the binding of a present key yields the rewritten record. -/
theorem findTask_setTask_self (l : List (String × TaskRecord)) (key : String)
    (f : TaskRecord → TaskRecord) (t : TaskRecord) (h : findTask l key = some t) :
    findTask (setTask l key f) key = some (f t) := by
  induction l with
  | nil => simp [findTask] at h
  | cons kt rest ih =>
      obtain ⟨k0, t0⟩ := kt
      by_cases h0 : k0 = key
      · subst h0
        simp [findTask] at h
        simp [setTask, findTask, h]
      · simp [findTask, h0] at h
        simp [setTask, findTask, h0, ih h]

/-- Counting through a one-key rewrite: the count changes exactly by the
predicate's change on the rewritten record. -/
theorem countP_setTask (l : List (String × TaskRecord)) (key : String)
    (f : TaskRecord → TaskRecord) (t : TaskRecord) (p : TaskRecord → Bool)
    (h : findTask l key = some t) :
    (setTask l key f).countP (fun kt => p kt.2) + (if p t then 1 else 0)
      = l.countP (fun kt => p kt.2) + (if p (f t) then 1 else 0) := by
  induction l with
  | nil => simp [findTask] at h
  | cons kt rest ih =>
      obtain ⟨k0, t0⟩ := kt
      by_cases h0 : k0 = key
      · subst h0
        simp [findTask] at h
        subst h
        simp [setTask, List.countP_cons]
        omega
      · simp [findTask, h0] at h
        have := ih h
        simp [setTask, h0, List.countP_cons]
        omega

/-- Claim C1: for every login attempt that got a response, a 200 status
overwrites both `access_token` and `refresh_token` with the values
extracted from the response body, and a non-200 status mutates none of
the three session fields. -/
theorem login_sets_tokens_on_200_else_no_mutation (s : Session) (r : Response) :
    (r.status = 200 →
      (loginAction s (some r)).access_token = r.body.get "access_token" ∧
      (loginAction s (some r)).refresh_token = r.body.get "refresh_token") ∧
    (r.status ≠ 200 → loginAction s (some r) = s) := by
  constructor
  · intro h
    simp [loginAction, h]
  · intro h
    simp [loginAction, h]

/-- Concrete instance of claim C1 at a successful and at a failed login. -/
theorem login_sets_tokens_on_200_else_no_mutation_witness :
    (loginAction Session.init
        (some ⟨200, Json.obj [("access_token", Json.str "a"), ("refresh_token", Json.str "b")]⟩)).access_token
      = some (Json.str "a") ∧
    loginAction Session.init (some ⟨401, Json.null⟩) = Session.init := by
  constructor
  · exact ((login_sets_tokens_on_200_else_no_mutation Session.init
      ⟨200, Json.obj [("access_token", Json.str "a"), ("refresh_token", Json.str "b")]⟩).1 rfl).1.trans rfl
  · exact (login_sets_tokens_on_200_else_no_mutation Session.init ⟨401, Json.null⟩).2 (by decide)

/-- Claim C2: the refresh handler never mutates `refresh_token` (nor
`user_data`); on a non-200 refresh response the whole session is
unchanged, so the session is never demoted to unauthenticated by a failed
refresh. -/
theorem refresh_only_mutates_access_token_on_200 (s : Session) (resp : Option Response) :
    (refreshAction s resp).refresh_token = s.refresh_token ∧
    (refreshAction s resp).user_data = s.user_data ∧
    (∀ r, resp = some r → r.status ≠ 200 → refreshAction s resp = s) := by
  refine ⟨(refreshAction_frame s resp).1, (refreshAction_frame s resp).2, ?_⟩
  intro r hr hs
  subst hr
  unfold refreshAction
  by_cases h : optTruthy s.refresh_token <;> simp [h, hs]

/-- Concrete instance of claim C2 at a failed refresh from an
authenticated session. -/
theorem refresh_only_mutates_access_token_on_200_witness :
    (refreshAction ⟨some (Json.str "at"), some (Json.str "rt"), none⟩
        (some ⟨500, Json.null⟩)).refresh_token = some (Json.str "rt") ∧
    refreshAction ⟨some (Json.str "at"), some (Json.str "rt"), none⟩ (some ⟨500, Json.null⟩)
      = ⟨some (Json.str "at"), some (Json.str "rt"), none⟩ := by
  constructor
  · exact (refresh_only_mutates_access_token_on_200
      ⟨some (Json.str "at"), some (Json.str "rt"), none⟩ (some ⟨500, Json.null⟩)).1
  · exact (refresh_only_mutates_access_token_on_200
      ⟨some (Json.str "at"), some (Json.str "rt"), none⟩ (some ⟨500, Json.null⟩)).2.2
      ⟨500, Json.null⟩ rfl (by decide)

/-- Claim C4: from the empty initial session, a successful login followed
by logout yields exactly the initial session — logout clears all three
fields. -/
theorem login_then_logout_roundtrip (s : Session) (r : Response)
    (hs : s = Session.init) (_hr : r.status = 200) :
    logoutAction (loginAction s (some r)) = s := by
  rw [logoutAction_eq_init, hs]

/-- Concrete instance of claim C4. -/
theorem login_then_logout_roundtrip_witness :
    logoutAction (loginAction Session.init
      (some ⟨200, Json.obj [("access_token", Json.str "a"), ("refresh_token", Json.str "b")]⟩))
      = Session.init :=
  login_then_logout_roundtrip _ _ rfl rfl

/-- Claim C5: with `auth_required` set but no access token stored, the
built request carries no Authorization header and is the very same
request as without the flag — the flag neither blocks the dispatch nor
changes the request. -/
theorem auth_required_without_token_sends_plain_request (baseUrl : String) (s : Session)
    (method endpoint : String) (data : Option Json) (h : s.access_token = none) :
    (make_request baseUrl s method endpoint data true).headers.lookup "Authorization" = none ∧
    make_request baseUrl s method endpoint data true
      = make_request baseUrl s method endpoint data false := by
  have hh : make_request baseUrl s method endpoint data true
      = make_request baseUrl s method endpoint data false := by
    simp [make_request, h, optTruthy]
  refine ⟨?_, hh⟩
  have hhead : (make_request baseUrl s method endpoint data true).headers
      = [("Content-Type", "application/json")] := by
    simp [make_request, h, optTruthy]
  rw [hhead]
  rfl

/-- Concrete instance of claim C5: the health-check request with the flag
set on a fresh session. -/
theorem auth_required_without_token_sends_plain_request_witness :
    (make_request "http://localhost:3000" Session.init "GET" "/health/live" none true).headers.lookup
        "Authorization" = none ∧
    make_request "http://localhost:3000" Session.init "GET" "/health/live" none true
      = make_request "http://localhost:3000" Session.init "GET" "/health/live" none false :=
  auth_required_without_token_sends_plain_request "http://localhost:3000" Session.init
    "GET" "/health/live" none rfl

/-- Claim C6 fails as stated: on a document whose `T1` record is already
completed (counters consistent), marking `T1` completed again leaves the
recomputed `completed` counter equal to its old value instead of
incrementing it. -/
theorem completing_completed_T1_does_not_increment :
    ¬ ((update_task_status docT1Completed "T1" "completed" none none "2026-10-13").1.project_info.completed
        = docT1Completed.project_info.completed + 1) := by
  decide

/-- Claim C6 (amended): when the `T1` record exists, its status is not yet
`"completed"`, and the stored counter agrees with the records, marking
`T1` completed increments `project_info.completed` by exactly one and the
record's status becomes `"completed"`. -/
theorem completing_T1_increments_counter (doc : TaskDoc) (assignee notes : Option String)
    (today : String) (t : TaskRecord)
    (hfind : findTask doc.tasks "T1" = some t)
    (hnot : t.status ≠ "completed")
    (hacc : doc.project_info.completed
      = doc.tasks.countP (fun kt => kt.2.status = "completed")) :
    (update_task_status doc "T1" "completed" assignee notes today).1.project_info.completed
      = doc.project_info.completed + 1 ∧
    (findTask (update_task_status doc "T1" "completed" assignee notes today).1.tasks "T1").map
        TaskRecord.status = some "completed" := by
  have hsome : (findTask doc.tasks "T1").isSome := by rw [hfind]; rfl
  have hres : (update_task_status doc "T1" "completed" assignee notes today).1
      = update_project_stats { doc with
          tasks := setTask doc.tasks "T1" (fun u => applyTaskUpdate u "completed" assignee notes today) } := by
    simp [update_task_status, hsome]
  constructor
  · rw [hres]
    show (setTask doc.tasks "T1" (fun u => applyTaskUpdate u "completed" assignee notes today)).countP
        (fun kt => kt.2.status = "completed") = doc.project_info.completed + 1
    have hc := countP_setTask doc.tasks "T1"
      (fun u => applyTaskUpdate u "completed" assignee notes today) t
      (fun u => u.status = "completed") hfind
    simp only [applyTaskUpdate_status, hnot] at hc
    simp at hc
    rw [hacc]
    omega
  · rw [hres]
    show (findTask (setTask doc.tasks "T1" (fun u => applyTaskUpdate u "completed" assignee notes today)) "T1").map
        TaskRecord.status = some "completed"
    rw [findTask_setTask_self _ _ _ t hfind]
    simp [applyTaskUpdate_status]

/-- Concrete instance of amended claim C6 on the default seed document. -/
theorem completing_T1_increments_counter_witness :
    (update_task_status (defaultTasks "2026-10-12") "T1" "completed" none none "2026-10-12").1.project_info.completed
      = (defaultTasks "2026-10-12").project_info.completed + 1 ∧
    (findTask (update_task_status (defaultTasks "2026-10-12") "T1" "completed" none none "2026-10-12").1.tasks "T1").map
        TaskRecord.status = some "completed" :=
  completing_T1_increments_counter (defaultTasks "2026-10-12") none none "2026-10-12"
    ⟨"Unit tests for core business logic", "pending", "high", 4, none, none, none⟩
    (by decide) (by decide) (by decide)

/-- Claim C7: for every document and count, `show_next_tasks` lists at
most `count` records, all of status `"pending"`, in nondecreasing
lexicographic (priority rank, estimated days) order — critical before
high before medium before low, ties broken by ascending days. -/
theorem show_next_tasks_sorted_pending (doc : TaskDoc) (count : Nat) :
    (show_next_tasks doc count).length ≤ count ∧
    (∀ kt ∈ show_next_tasks doc count, kt.2.status = "pending") ∧
    (show_next_tasks doc count).Pairwise nextLe := by
  refine ⟨List.length_take_le _ _, ?_, ?_⟩
  · intro kt hkt
    have h1 : kt ∈ List.insertionSort nextLe
        (doc.tasks.filter (fun x => x.2.status = "pending")) :=
      List.mem_of_mem_take hkt
    have h2 : kt ∈ doc.tasks.filter (fun x => x.2.status = "pending") :=
      (List.perm_insertionSort nextLe _).mem_iff.mp h1
    exact of_decide_eq_true (List.mem_filter.mp h2).2
  · exact List.Pairwise.sublist (List.take_sublist _ _)
      (List.sorted_insertionSort nextLe
        (doc.tasks.filter (fun x => x.2.status = "pending")))

/-- Concrete instance of claim C7: the default document's top
recommendation list has at most five entries, and the theorem applied to
the member `CF1` (critical, 9 days) confirms its pending status. -/
theorem show_next_tasks_sorted_pending_witness :
    (show_next_tasks (defaultTasks "2026-10-12") 5).length ≤ 5 ∧
    (("CF1", (⟨"Menu management system", "pending", "critical", 9, none, none, none⟩ : TaskRecord)) :
        String × TaskRecord).2.status = "pending" := by
  refine ⟨(show_next_tasks_sorted_pending (defaultTasks "2026-10-12") 5).1, ?_⟩
  exact (show_next_tasks_sorted_pending (defaultTasks "2026-10-12") 5).2.1 _ (by decide)

/-- Claim C8: updating a task code that is absent from the task mapping
returns the document unchanged and does not save to disk. -/
theorem unknown_task_code_leaves_doc_unmodified (doc : TaskDoc) (task_id status : String)
    (assignee notes : Option String) (today : String)
    (h : findTask doc.tasks task_id = none) :
    update_task_status doc task_id status assignee notes today = (doc, false) := by
  simp [update_task_status, h]

/-- Concrete instance of claim C8: unknown code `Z9` on the default
document. -/
theorem unknown_task_code_leaves_doc_unmodified_witness :
    update_task_status (defaultTasks "2026-10-12") "Z9" "completed" none none "2026-10-12"
      = (defaultTasks "2026-10-12", false) :=
  unknown_task_code_leaves_doc_unmodified (defaultTasks "2026-10-12") "Z9" "completed"
    none none "2026-10-12" (by decide)

/-- Recomputing the statistics changes neither the tasks nor the name,
start date or total count. -/
theorem update_project_stats_frame (d : TaskDoc) :
    (update_project_stats d).tasks = d.tasks ∧
    (update_project_stats d).project_info.name = d.project_info.name ∧
    (update_project_stats d).project_info.start_date = d.project_info.start_date ∧
    (update_project_stats d).project_info.total_tasks = d.project_info.total_tasks :=
  ⟨rfl, rfl, rfl, rfl⟩

/-- Claim C10: updating an existing task code touches only that record —
and there only status, last-updated, assignee and notes (name, priority
and day estimate survive) — and, in `project_info`, only the `completed`
and `in_progress` counters: every other record and the `name`,
`start_date` and `total_tasks` fields are unchanged. -/
theorem update_task_status_frame (doc : TaskDoc) (task_id status : String)
    (assignee notes : Option String) (today : String) (t : TaskRecord)
    (h : findTask doc.tasks task_id = some t) :
    (∀ k, k ≠ task_id →
      findTask (update_task_status doc task_id status assignee notes today).1.tasks k
        = findTask doc.tasks k) ∧
    (findTask (update_task_status doc task_id status assignee notes today).1.tasks task_id).map
        TaskRecord.name = some t.name ∧
    (findTask (update_task_status doc task_id status assignee notes today).1.tasks task_id).map
        TaskRecord.priority = some t.priority ∧
    (findTask (update_task_status doc task_id status assignee notes today).1.tasks task_id).map
        TaskRecord.days = some t.days ∧
    (update_task_status doc task_id status assignee notes today).1.project_info.name
      = doc.project_info.name ∧
    (update_task_status doc task_id status assignee notes today).1.project_info.start_date
      = doc.project_info.start_date ∧
    (update_task_status doc task_id status assignee notes today).1.project_info.total_tasks
      = doc.project_info.total_tasks := by
  have hsome : (findTask doc.tasks task_id).isSome := by rw [h]; rfl
  have hres : (update_task_status doc task_id status assignee notes today).1
      = update_project_stats { doc with
          tasks := setTask doc.tasks task_id
            (fun u => applyTaskUpdate u status assignee notes today) } := by
    simp [update_task_status, hsome]
  have hself : findTask (update_task_status doc task_id status assignee notes today).1.tasks task_id
      = some (applyTaskUpdate t status assignee notes today) := by
    rw [hres]
    exact findTask_setTask_self _ _ _ t h
  refine ⟨?_, ?_, ?_, ?_, ?_, ?_, ?_⟩
  · intro k hk
    rw [hres]
    exact findTask_setTask_other _ _ _ _ hk
  · rw [hself]
    simp [(applyTaskUpdate_frame t status assignee notes today).1]
  · rw [hself]
    simp [(applyTaskUpdate_frame t status assignee notes today).2.1]
  · rw [hself]
    simp [(applyTaskUpdate_frame t status assignee notes today).2.2]
  · rw [hres]; rfl
  · rw [hres]; rfl
  · rw [hres]; rfl

/-- Concrete instance of claim C10: moving `T1` to in-progress leaves
`T2`'s record and the fixed project fields untouched. -/
theorem update_task_status_frame_witness :
    findTask (update_task_status (defaultTasks "2026-10-12") "T1" "in_progress" none none "2026-10-12").1.tasks "T2"
      = findTask (defaultTasks "2026-10-12").tasks "T2" ∧
    (update_task_status (defaultTasks "2026-10-12") "T1" "in_progress" none none "2026-10-12").1.project_info.total_tasks
      = (defaultTasks "2026-10-12").project_info.total_tasks := by
  have h := update_task_status_frame (defaultTasks "2026-10-12") "T1" "in_progress"
    none none "2026-10-12"
    ⟨"Unit tests for core business logic", "pending", "high", 4, none, none, none⟩
    (by decide)
  exact ⟨h.1 "T2" (by decide), h.2.2.2.2.2.2⟩

/-- Claim C3 fails as stated: the update-user handler — neither a profile
fetch nor a login — also writes `user_data`: a successful name update
rewrites the cached profile's name (app.py line 234). -/
theorem update_user_success_writes_user_profile :
    (step "http://localhost:3000"
        (UiAction.updateUser "Bob" (some ⟨200, Json.obj []⟩)) profileSession).user_data
      ≠ profileSession.user_data := by
  simp [step, updateUserAction, profileSession, optTruthy, Json.truthy,
    Json.setKey, Json.setKey.setField]

/-- Claim C3 (amended): `user_data` is written only by a successful
profile fetch, by a successful user update (which rewrites the cached
name), or by logout (which clears it).  In particular a successful login
does not write it, and no other handler does. -/
theorem user_profile_writers (baseUrl : String) (a : UiAction) (s : Session)
    (h : (step baseUrl a s).user_data ≠ s.user_data) :
    (∃ r, a = UiAction.getProfile (some r) ∧ r.status = 200) ∨
    (∃ newName r, a = UiAction.updateUser newName (some r) ∧ r.status = 200) ∨
    a = UiAction.logout := by
  cases a with
  | register resp => exact absurd rfl h
  | login resp => exact absurd (loginAction_user_data s resp) h
  | refreshTok resp => exact absurd (refreshAction_frame s resp).2 h
  | logout => exact Or.inr (Or.inr rfl)
  | healthLive resp => exact absurd rfl h
  | healthReady resp => exact absurd rfl h
  | getProfile resp =>
      cases resp with
      | none => exact absurd rfl h
      | some r =>
          by_cases h2 : r.status = 200
          · exact Or.inl ⟨r, rfl, h2⟩
          · refine absurd ?_ h
            show (profileFetchAction s (some r)).user_data = s.user_data
            simp [profileFetchAction, h2]
  | getStats resp => exact absurd rfl h
  | getUserById uid resp => exact absurd rfl h
  | updateUser newName resp =>
      by_cases h0 : optTruthy s.user_data
      · cases hud : s.user_data with
        | none => rw [hud] at h0; simp [optTruthy] at h0
        | some ud =>
            cases resp with
            | none =>
                refine absurd ?_ h
                show (updateUserAction s newName none).user_data = s.user_data
                simp [updateUserAction, h0, hud]
            | some r =>
                by_cases h2 : r.status = 200
                · exact Or.inr (Or.inl ⟨newName, r, rfl, h2⟩)
                · refine absurd ?_ h
                  show (updateUserAction s newName (some r)).user_data = s.user_data
                  simp [updateUserAction, h0, hud, h2]
      · refine absurd ?_ h
        show (updateUserAction s newName resp).user_data = s.user_data
        simp [updateUserAction, h0]
  | deleteUser uid resp => exact absurd rfl h
  | createUser resp => exact absurd rfl h
  | createRefreshToken resp => exact absurd rfl h
  | getRefreshToken tid resp => exact absurd rfl h
  | updateRefreshToken tid tok resp => exact absurd rfl h
  | deleteRefreshToken tid resp => exact absurd rfl h
  | apiTest parseJson method endpoint request_body auth_required resp =>
      refine absurd ?_ h
      show ((api_testing_submit parseJson baseUrl s method endpoint request_body
        auth_required).2).user_data = s.user_data
      rw [api_testing_submit_snd]

/-- The amended claim C3 applied at the concrete logout action from a
session holding a profile. -/
theorem user_profile_writers_witness :
    (∃ r, UiAction.logout = UiAction.getProfile (some r) ∧ r.status = 200) ∨
    (∃ newName r, UiAction.logout = UiAction.updateUser newName (some r) ∧ r.status = 200) ∨
    UiAction.logout = UiAction.logout :=
  user_profile_writers "http://localhost:3000" UiAction.logout profileSession (by
    show (logoutAction profileSession).user_data ≠ profileSession.user_data
    simp [logoutAction, profileSession])

/-- Claim C9 fails as stated: an empty request body is not valid JSON
(`json.loads("")` raises `JSONDecodeError`), yet the handler skips parsing
— the empty string is falsy — reports no validation error, and still
dispatches the request with no payload. -/
theorem empty_body_still_dispatches :
    ((api_testing_submit (fun _ => none) "http://localhost:3000" Session.init
        "POST" "/api/v1/users" (some "") false).1.request).isSome = true ∧
    (api_testing_submit (fun _ => none) "http://localhost:3000" Session.init
        "POST" "/api/v1/users" (some "") false).1.errorMsg = none :=
  ⟨rfl, rfl⟩

/-- Claim C9 (amended): for every submission whose request body is
non-empty and not valid JSON, the handler reports the validation error,
dispatches no request, and returns the session unchanged. -/
theorem invalid_json_body_blocks_request (parseJson : String → Option Json)
    (baseUrl : String) (s : Session) (method endpoint body : String)
    (auth_required : Bool) (hne : body ≠ "") (hbad : parseJson body = none) :
    api_testing_submit parseJson baseUrl s method endpoint (some body) auth_required
      = ({ request := none, errorMsg := some "Invalid JSON in request body" }, s) := by
  simp [api_testing_submit, hne, hbad]

/-- Concrete instance of amended claim C9. -/
theorem invalid_json_body_blocks_request_witness :
    api_testing_submit (fun _ => none) "http://localhost:3000" Session.init
        "POST" "/api/v1/users" (some "not json") true
      = ({ request := none, errorMsg := some "Invalid JSON in request body" }, Session.init) :=
  invalid_json_body_blocks_request (fun _ => none) "http://localhost:3000" Session.init
    "POST" "/api/v1/users" "not json" true (by decide) rfl
